import Mathlib

/-!
Verification of `nanochat/dist_utils.py`, a three-operation facade over the
external distributed runtime (`torch.distributed`).

The external runtime is modelled as a record of the four query primitives the
component consumes (spec §6): each primitive either reports a value (`.ok`) or
fails (`.error e`), since the component catches nothing and lets runtime
failures propagate (spec §7).  An operation of the component is embedded as a
function from a runtime state to an `Outcome`: the result (or propagated
error), the list of primitive queries the operation issued on the runtime, in
order, and the runtime state after the call.
-/

/-- Operations of the external distributed runtime, as seen at the component
boundary.  The first four are the query primitives consumed by the component
(spec §6).  The last two stand for the runtime's mutating lifecycle
operations (process-group initialization / finalization, spec §3): the
component never issues them, which is what makes the read-only claim
expressible. -/
inductive Query where
  | is_available
  | is_initialized
  | get_rank
  | get_world_size
  | init_process_group
  | destroy_process_group
deriving DecidableEq, Repr

/-- Whether a runtime operation mutates the runtime's process-group state.
Only the two lifecycle operations do; the four query primitives are pure
reads (spec §6: "pure query, no side effects"). -/
def Query.isMutating : Query → Bool
  | .init_process_group => true
  | .destroy_process_group => true
  | _ => false

/-- A state of the external distributed runtime, as observable through its
four query primitives.  Each field gives what the corresponding primitive
would report if invoked in this state: a value, or a failure `e` that the
primitive raises (the component never catches such failures). -/
structure DistRuntime (ε : Type) where
  is_available : Except ε Bool
  is_initialized : Except ε Bool
  get_rank : Except ε Int
  get_world_size : Except ε Int
deriving Repr

/-- A runtime state in which every primitive reports a value (no failures):
availability `a`, initialization state `i`, rank `r`, world size `w`. -/
def DistRuntime.report (ε : Type) (a i : Bool) (r w : Int) : DistRuntime ε :=
  ⟨.ok a, .ok i, .ok r, .ok w⟩

/-- The observable effect of one call to a component operation: its result
(or the propagated runtime failure), the runtime queries it issued in order,
and the runtime state after the call. -/
structure Outcome (ε α : Type) where
  res : Except ε α
  trace : List Query
  state : DistRuntime ε
deriving Repr

/-- `dist_enabled()`: `return dist.is_available() and dist.is_initialized()`.
Python's `and` short-circuits: `is_initialized` is queried only when
`is_available` returned `True`.  A failure raised by either primitive
propagates. -/
def dist_enabled {ε : Type} (rt : DistRuntime ε) : Outcome ε Bool :=
  match rt.is_available with
  | .error e => ⟨.error e, [.is_available], rt⟩
  | .ok false => ⟨.ok false, [.is_available], rt⟩
  | .ok true =>
    match rt.is_initialized with
    | .error e => ⟨.error e, [.is_available, .is_initialized], rt⟩
    | .ok i => ⟨.ok i, [.is_available, .is_initialized], rt⟩

/-- `get_rank_safe()`: `if dist_enabled(): return dist.get_rank()` else
`return 0`.  The `dist_enabled()` call is re-evaluated (its queries are part
of this operation's trace); a failure from it, or from `get_rank`,
propagates. -/
def get_rank_safe {ε : Type} (rt : DistRuntime ε) : Outcome ε Int :=
  let d := dist_enabled rt
  match d.res with
  | .error e => ⟨.error e, d.trace, d.state⟩
  | .ok true =>
    match d.state.get_rank with
    | .error e => ⟨.error e, d.trace ++ [.get_rank], d.state⟩
    | .ok r => ⟨.ok r, d.trace ++ [.get_rank], d.state⟩
  | .ok false => ⟨.ok 0, d.trace, d.state⟩

/-- `get_world_size_safe()`: `if dist_enabled(): return dist.get_world_size()`
else `return 1`. -/
def get_world_size_safe {ε : Type} (rt : DistRuntime ε) : Outcome ε Int :=
  let d := dist_enabled rt
  match d.res with
  | .error e => ⟨.error e, d.trace, d.state⟩
  | .ok true =>
    match d.state.get_world_size with
    | .error e => ⟨.error e, d.trace ++ [.get_world_size], d.state⟩
    | .ok w => ⟨.ok w, d.trace ++ [.get_world_size], d.state⟩
  | .ok false => ⟨.ok 1, d.trace, d.state⟩

/-- Helper: `dist_enabled` leaves the runtime state unchanged. -/
theorem dist_enabled_state {ε : Type} (rt : DistRuntime ε) :
    (dist_enabled rt).state = rt := by
  unfold dist_enabled
  rcases hA : rt.is_available with e | a
  · rfl
  · cases a
    · rfl
    · rcases hI : rt.is_initialized with e | i <;> rfl

/-- Helper: `get_rank_safe` leaves the runtime state unchanged. -/
theorem get_rank_safe_state {ε : Type} (rt : DistRuntime ε) :
    (get_rank_safe rt).state = rt := by
  unfold get_rank_safe dist_enabled
  rcases hA : rt.is_available with e | a
  · rfl
  · cases a
    · rfl
    · rcases hI : rt.is_initialized with e | i
      · rfl
      · cases i
        · rfl
        · rcases hR : rt.get_rank with e | r <;> simp [hR]

/-- Helper: `get_world_size_safe` leaves the runtime state unchanged. -/
theorem get_world_size_safe_state {ε : Type} (rt : DistRuntime ε) :
    (get_world_size_safe rt).state = rt := by
  unfold get_world_size_safe dist_enabled
  rcases hA : rt.is_available with e | a
  · rfl
  · cases a
    · rfl
    · rcases hI : rt.is_initialized with e | i
      · rfl
      · cases i
        · rfl
        · rcases hW : rt.get_world_size with e | w <;> simp [hW]

/-- C1: in every runtime state whose primitives report available and
initialized with rank `R` and world size `W` (`0 ≤ R < W`), `get_rank_safe`
returns exactly `R`, `get_world_size_safe` returns exactly `W` (verbatim, no
transformation or off-by-one), and `dist_enabled` returns `true`. -/
theorem c1_enabled_rank_world_verbatim {ε : Type} (rt : DistRuntime ε)
    (R W : Int) (_h0 : 0 ≤ R) (_hRW : R < W)
    (hA : rt.is_available = .ok true) (hI : rt.is_initialized = .ok true)
    (hR : rt.get_rank = .ok R) (hW : rt.get_world_size = .ok W) :
    (get_rank_safe rt).res = .ok R ∧ (get_world_size_safe rt).res = .ok W ∧
      (dist_enabled rt).res = .ok true := by
  unfold get_rank_safe get_world_size_safe dist_enabled
  simp [hA, hI, hR, hW]

/-- C1 witness: the multi-process scenario rank 3, world size 8. -/
theorem c1_enabled_rank_world_verbatim_witness :
    (get_rank_safe (DistRuntime.report Unit true true 3 8)).res = .ok 3 ∧
      (get_world_size_safe (DistRuntime.report Unit true true 3 8)).res = .ok 8 ∧
      (dist_enabled (DistRuntime.report Unit true true 3 8)).res = .ok true :=
  c1_enabled_rank_world_verbatim (DistRuntime.report Unit true true 3 8) 3 8
    (by decide) (by decide) rfl rfl rfl rfl

/-- C2: in every runtime state whose primitives report support unavailable, or
support available but the process group uninitialized, `dist_enabled` returns
`false`, `get_rank_safe` returns the default `0`, and `get_world_size_safe`
returns the default `1`. -/
theorem c2_default_path {ε : Type} (rt : DistRuntime ε)
    (h : rt.is_available = .ok false ∨
      (rt.is_available = .ok true ∧ rt.is_initialized = .ok false)) :
    (dist_enabled rt).res = .ok false ∧ (get_rank_safe rt).res = .ok 0 ∧
      (get_world_size_safe rt).res = .ok 1 := by
  unfold get_rank_safe get_world_size_safe dist_enabled
  rcases h with hA | ⟨hA, hI⟩
  · simp [hA]
  · simp [hA, hI]

/-- C2 witness: no distributed runtime available at all. -/
theorem c2_default_path_witness :
    (dist_enabled (DistRuntime.report Unit false false 0 1)).res = .ok false ∧
      (get_rank_safe (DistRuntime.report Unit false false 0 1)).res = .ok 0 ∧
      (get_world_size_safe (DistRuntime.report Unit false false 0 1)).res = .ok 1 :=
  c2_default_path (DistRuntime.report Unit false false 0 1) (Or.inl rfl)

/-- C3: `dist_enabled` returns `true` iff the availability primitive reports
`true` and the initialization primitive reports `true`; and whenever both
primitives report values `a` and `i`, the result is exactly `a && i`, so it is
`false` as soon as either reported fact is `false`. -/
theorem c3_enabled_iff_both {ε : Type} (rt : DistRuntime ε) :
    ((dist_enabled rt).res = .ok true ↔
      rt.is_available = .ok true ∧ rt.is_initialized = .ok true) ∧
    (∀ a i : Bool, rt.is_available = .ok a → rt.is_initialized = .ok i →
      (dist_enabled rt).res = .ok (a && i)) := by
  constructor
  · unfold dist_enabled
    rcases hA : rt.is_available with e | a
    · simp
    · cases a
      · simp
      · rcases hI : rt.is_initialized with e | i
        · simp [hI]
        · cases i <;> simp [hI]
  · intro a i hA hI
    unfold dist_enabled
    cases a <;> simp [hA, hI]

/-- C3 witness: available-and-initialized yields `true`. -/
theorem c3_enabled_iff_both_witness :
    (dist_enabled (DistRuntime.report Unit true true 0 1)).res = .ok true :=
  (c3_enabled_iff_both (DistRuntime.report Unit true true 0 1)).1.mpr ⟨rfl, rfl⟩

/-- C4: whenever the runtime state does not report available-and-initialized
(support unavailable, group uninitialized, or a primitive failing), the rank
and world-size primitives are never queried: `get_rank` is absent from the
trace of `get_rank_safe` and `get_world_size` from the trace of
`get_world_size_safe`; and when the state reports unavailable or
uninitialized, the defaults 0 and 1 are substituted instead. -/
theorem c4_no_delegation_when_not_enabled {ε : Type} (rt : DistRuntime ε) :
    (¬(rt.is_available = .ok true ∧ rt.is_initialized = .ok true) →
      Query.get_rank ∉ (get_rank_safe rt).trace ∧
      Query.get_world_size ∉ (get_world_size_safe rt).trace) ∧
    (rt.is_available = .ok false ∨
        (rt.is_available = .ok true ∧ rt.is_initialized = .ok false) →
      (get_rank_safe rt).res = .ok 0 ∧ (get_world_size_safe rt).res = .ok 1) := by
  constructor
  · intro h
    unfold get_rank_safe get_world_size_safe dist_enabled
    rcases hA : rt.is_available with e | a
    · simp
    · cases a
      · simp
      · rcases hI : rt.is_initialized with e | i
        · simp
        · cases i
          · simp
          · exact absurd ⟨hA, hI⟩ h
  · intro h
    unfold get_rank_safe get_world_size_safe dist_enabled
    rcases h with hA | ⟨hA, hI⟩
    · simp [hA]
    · simp [hA, hI]

/-- C4 witness: available but uninitialized: no delegation, defaults used. -/
theorem c4_no_delegation_when_not_enabled_witness :
    (Query.get_rank ∉ (get_rank_safe (DistRuntime.report Unit true false 0 1)).trace ∧
      Query.get_world_size ∉
        (get_world_size_safe (DistRuntime.report Unit true false 0 1)).trace) ∧
    ((get_rank_safe (DistRuntime.report Unit true false 0 1)).res = .ok 0 ∧
      (get_world_size_safe (DistRuntime.report Unit true false 0 1)).res = .ok 1) :=
  ⟨(c4_no_delegation_when_not_enabled (DistRuntime.report Unit true false 0 1)).1
      (by intro h; simp [DistRuntime.report] at h),
    (c4_no_delegation_when_not_enabled (DistRuntime.report Unit true false 0 1)).2
      (Or.inr ⟨rfl, rfl⟩)⟩

/-- C5: a failure `e` raised by any primitive queried during `dist_enabled`,
`get_rank_safe`, or `get_world_size_safe` propagates to the caller unmodified
(the operation's result is exactly `.error e`, never a value of its own): this
holds for a failing `is_available`, a failing `is_initialized` (queried after
`is_available` reports `true`), and failing `get_rank` / `get_world_size`
(queried after both report `true`). -/
theorem c5_failures_propagate_unmodified {ε : Type} (rt : DistRuntime ε) (e : ε) :
    (rt.is_available = .error e →
      (dist_enabled rt).res = .error e ∧ (get_rank_safe rt).res = .error e ∧
        (get_world_size_safe rt).res = .error e) ∧
    (rt.is_available = .ok true → rt.is_initialized = .error e →
      (dist_enabled rt).res = .error e ∧ (get_rank_safe rt).res = .error e ∧
        (get_world_size_safe rt).res = .error e) ∧
    (rt.is_available = .ok true → rt.is_initialized = .ok true →
      rt.get_rank = .error e → (get_rank_safe rt).res = .error e) ∧
    (rt.is_available = .ok true → rt.is_initialized = .ok true →
      rt.get_world_size = .error e → (get_world_size_safe rt).res = .error e) := by
  refine ⟨fun hA => ?_, fun hA hI => ?_, fun hA hI hR => ?_, fun hA hI hW => ?_⟩
  · unfold get_world_size_safe get_rank_safe dist_enabled
    simp [hA]
  · unfold get_world_size_safe get_rank_safe dist_enabled
    simp [hA, hI]
  · unfold get_rank_safe dist_enabled
    simp [hA, hI, hR]
  · unfold get_world_size_safe dist_enabled
    simp [hA, hI, hW]

/-- C5 witness: a failing `is_available` primitive propagates through all
three operations. -/
theorem c5_failures_propagate_unmodified_witness :
    (dist_enabled (⟨.error 7, .ok true, .ok 0, .ok 1⟩ : DistRuntime Nat)).res
        = .error 7 ∧
      (get_rank_safe (⟨.error 7, .ok true, .ok 0, .ok 1⟩ : DistRuntime Nat)).res
        = .error 7 ∧
      (get_world_size_safe
          (⟨.error 7, .ok true, .ok 0, .ok 1⟩ : DistRuntime Nat)).res
        = .error 7 :=
  (c5_failures_propagate_unmodified
    (⟨.error 7, .ok true, .ok 0, .ok 1⟩ : DistRuntime Nat) 7).1 rfl

/-- C6: the three operations are idempotent with respect to external state:
running an operation and then running it again on the runtime state left by
the first call yields an identical outcome (same result, same queries, same
state), since no call caches anything or keeps internal state. -/
theorem c6_idempotent {ε : Type} (rt : DistRuntime ε) :
    dist_enabled (dist_enabled rt).state = dist_enabled rt ∧
      get_rank_safe (get_rank_safe rt).state = get_rank_safe rt ∧
      get_world_size_safe (get_world_size_safe rt).state = get_world_size_safe rt := by
  refine ⟨?_, ?_, ?_⟩
  · rw [dist_enabled_state]
  · rw [get_rank_safe_state]
  · rw [get_world_size_safe_state]

/-- C7: every call to any of the three operations leaves the external
runtime's state unchanged, and every query it issues on the runtime is a
non-mutating one (never process-group initialization or finalization); the
component holds no state of its own. -/
theorem c7_read_only {ε : Type} (rt : DistRuntime ε) :
    ((dist_enabled rt).state = rt ∧ (get_rank_safe rt).state = rt ∧
      (get_world_size_safe rt).state = rt) ∧
    ((dist_enabled rt).trace.all (fun q => !q.isMutating) = true ∧
      (get_rank_safe rt).trace.all (fun q => !q.isMutating) = true ∧
      (get_world_size_safe rt).trace.all (fun q => !q.isMutating) = true) := by
  refine ⟨⟨dist_enabled_state rt, get_rank_safe_state rt,
    get_world_size_safe_state rt⟩, ?_, ?_, ?_⟩
  · unfold dist_enabled
    rcases hA : rt.is_available with e | a
    · rfl
    · cases a
      · rfl
      · rcases hI : rt.is_initialized with e | i <;> rfl
  · unfold get_rank_safe dist_enabled
    rcases hA : rt.is_available with e | a
    · rfl
    · cases a
      · rfl
      · rcases hI : rt.is_initialized with e | i
        · rfl
        · cases i
          · rfl
          · rcases hR : rt.get_rank with e | r <;> simp [hR, Query.isMutating]
  · unfold get_world_size_safe dist_enabled
    rcases hA : rt.is_available with e | a
    · rfl
    · cases a
      · rfl
      · rcases hI : rt.is_initialized with e | i
        · rfl
        · cases i
          · rfl
          · rcases hW : rt.get_world_size with e | w <;>
              simp [hW, Query.isMutating]

/-- C8: a runtime state reporting support available but the group
uninitialized is indistinguishable, through the three operations' results,
from one reporting support unavailable: both collapse to the default path
`false` / `0` / `1`. -/
theorem c8_uninit_equiv_unavailable {ε : Type} (rt1 rt2 : DistRuntime ε)
    (h1a : rt1.is_available = .ok true) (h1i : rt1.is_initialized = .ok false)
    (h2a : rt2.is_available = .ok false) :
    ((dist_enabled rt1).res = (dist_enabled rt2).res ∧
      (get_rank_safe rt1).res = (get_rank_safe rt2).res ∧
      (get_world_size_safe rt1).res = (get_world_size_safe rt2).res) ∧
    ((dist_enabled rt1).res = .ok false ∧ (get_rank_safe rt1).res = .ok 0 ∧
      (get_world_size_safe rt1).res = .ok 1) := by
  unfold get_rank_safe get_world_size_safe dist_enabled
  simp [h1a, h1i, h2a]

/-- C8 witness: two concrete such states, with different rank and size
fields, produce equal results. -/
theorem c8_uninit_equiv_unavailable_witness :
    (((dist_enabled (DistRuntime.report Unit true false 5 9)).res
          = (dist_enabled (DistRuntime.report Unit false true 2 4)).res ∧
        (get_rank_safe (DistRuntime.report Unit true false 5 9)).res
          = (get_rank_safe (DistRuntime.report Unit false true 2 4)).res ∧
        (get_world_size_safe (DistRuntime.report Unit true false 5 9)).res
          = (get_world_size_safe (DistRuntime.report Unit false true 2 4)).res) ∧
      ((dist_enabled (DistRuntime.report Unit true false 5 9)).res = .ok false ∧
        (get_rank_safe (DistRuntime.report Unit true false 5 9)).res = .ok 0 ∧
        (get_world_size_safe (DistRuntime.report Unit true false 5 9)).res
          = .ok 1)) :=
  c8_uninit_equiv_unavailable (DistRuntime.report Unit true false 5 9)
    (DistRuntime.report Unit false true 2 4) rfl rfl rfl

/-- C9: `dist_enabled` short-circuits: when the availability primitive
reports `false` the operation returns `false` without ever querying the
initialization primitive, and the initialization primitive appears in the
trace only when the availability primitive reported `true`. -/
theorem c9_short_circuit {ε : Type} (rt : DistRuntime ε) :
    (rt.is_available = .ok false →
      (dist_enabled rt).res = .ok false ∧
        Query.is_initialized ∉ (dist_enabled rt).trace) ∧
    (Query.is_initialized ∈ (dist_enabled rt).trace →
      rt.is_available = .ok true) := by
  constructor
  · intro hA
    unfold dist_enabled
    simp [hA]
  · intro hmem
    unfold dist_enabled at hmem
    rcases hA : rt.is_available with e | a
    · rw [hA] at hmem
      simp at hmem
    · cases a
      · rw [hA] at hmem
        simp at hmem
      · rfl

/-- C9 witness: support unavailable: result `false`, initialization never
queried. -/
theorem c9_short_circuit_witness :
    (dist_enabled (DistRuntime.report Unit false true 0 1)).res = .ok false ∧
      Query.is_initialized
        ∉ (dist_enabled (DistRuntime.report Unit false true 0 1)).trace :=
  (c9_short_circuit (DistRuntime.report Unit false true 0 1)).1 rfl

/-- C10: when the runtime reports available-and-initialized, the delegated
values are returned unvalidated: whatever value the rank primitive reports is
returned exactly by `get_rank_safe`, and likewise for `get_world_size_safe`,
including a negative rank or a world size of 0. -/
theorem c10_passthrough_unvalidated {ε : Type} (rt : DistRuntime ε)
    (hA : rt.is_available = .ok true) (hI : rt.is_initialized = .ok true) :
    (∀ v : Int, rt.get_rank = .ok v → (get_rank_safe rt).res = .ok v) ∧
    (∀ v : Int, rt.get_world_size = .ok v →
      (get_world_size_safe rt).res = .ok v) := by
  constructor
  · intro v hR
    unfold get_rank_safe dist_enabled
    simp [hA, hI, hR]
  · intro v hW
    unfold get_world_size_safe dist_enabled
    simp [hA, hI, hW]

/-- C10 witness: a negative rank and a world size of 0 are passed through
as-is. -/
theorem c10_passthrough_unvalidated_witness :
    (get_rank_safe (⟨.ok true, .ok true, .ok (-1), .ok 0⟩ : DistRuntime Unit)).res
        = .ok (-1) ∧
      (get_world_size_safe
          (⟨.ok true, .ok true, .ok (-1), .ok 0⟩ : DistRuntime Unit)).res
        = .ok 0 :=
  ⟨(c10_passthrough_unvalidated
      (⟨.ok true, .ok true, .ok (-1), .ok 0⟩ : DistRuntime Unit) rfl rfl).1
      (-1) rfl,
    (c10_passthrough_unvalidated
      (⟨.ok true, .ok true, .ok (-1), .ok 0⟩ : DistRuntime Unit) rfl rfl).2
      0 rfl⟩
